import Mathlib

/-!
Verification of the batching and result-reconciliation core of the
`nvinfercustom` GStreamer element (`gstnvinfer.cpp`).

The development shallowly embeds the parts of the C++ code the claims are
about:

* the reinference decision function `should_infer_object`;
* the periodic object-history cleanup `cleanup_history_map`;
* the stream-EOS handling of `gst_nvinfer_sink_event`;
* the per-object loop of `gst_nvinfer_process_objects` (batch building,
  deferred metadata attachment, async-mode untracked-object skipping);
* the under-inference bookkeeping and classifier-result merging performed
  by `gst_nvinfer_output_loop`;
* the two-queue pipeline formed by `gst_nvinfer_submit_input_buffer`,
  `gst_nvinfer_input_queue_loop` and `gst_nvinfer_output_loop`, as a
  labelled transition system.

Machine integers (`gulong`, `guint64`, `GstClockTime`) are modelled as
natural numbers together with explicit wrap-around subtraction
(`gulongSub`).  Geometry (`NvOSD_RectParams` widths/heights) is modelled
with exact rationals.
-/

namespace GstNvInfer

/-- `REINFER_AREA_THRESHOLD` from gstnvinfer.cpp: tracked objects are
reinferred only when their pixel area grows by this ratio (0.2). -/
def REINFER_AREA_THRESHOLD : ℚ := 1/5

/-- `CLEANUP_ACCESS_CRITERIA`: history entries unseen for more than this
many frames are removed at cleanup. -/
def CLEANUP_ACCESS_CRITERIA : ℕ := 150

/-- `MAP_CLEANUP_INTERVAL`: cleanup cadence in frames. -/
def MAP_CLEANUP_INTERVAL : ℕ := 1800

/-- `UNTRACKED_OBJECT_WARN_INTERVAL` = GST_SECOND * 60 * 5 nanoseconds. -/
def UNTRACKED_OBJECT_WARN_INTERVAL : ℕ := 1000000000 * 60 * 5

/-- `UNTRACKED_OBJECT_ID` (G_MAXUINT64): sentinel object id meaning the
object carries no valid tracking id. -/
def UNTRACKED_OBJECT_ID : ℕ := 2^64 - 1

/-- Modulus of the C `gulong`/`guint64` types on the target platform. -/
def GULONG_MOD : ℕ := 2^64

/-- Wrap-around unsigned subtraction `a - b` on 64-bit unsigned values
(operands are `gulong`/`guint64` values, hence `< GULONG_MOD`). -/
def gulongSub (a b : ℕ) : ℕ := (a + GULONG_MOD - b % GULONG_MOD) % GULONG_MOD

/-- For in-range operands with `b ≤ a`, wrap-around subtraction agrees
with truncated natural subtraction. -/
theorem gulongSub_eq_sub (a b : ℕ) (hba : b ≤ a) (ha : a < GULONG_MOD) :
    gulongSub a b = a - b := by
  unfold gulongSub
  have hb : b % GULONG_MOD = b := Nat.mod_eq_of_lt (lt_of_le_of_lt hba ha)
  rw [hb]
  have h1 : a + GULONG_MOD - b = (a - b) + GULONG_MOD := by omega
  rw [h1, Nat.add_mod_right]
  exact Nat.mod_eq_of_lt (lt_of_le_of_lt (Nat.sub_le a b) ha)

/-- `NvOSD_RectParams` restricted to the fields the core reads. -/
structure RectParams where
  left : ℚ
  top : ℚ
  width : ℚ
  height : ℚ
  deriving DecidableEq, Repr

/-- Classifier output restricted to its attribute slots: slot `i` holds
`some label` when the result sets attribute `i` and `none` when it leaves
the slot unset (`GstNvinfercustomObjectInfo`). -/
abbrev ObjectInfo := List (Option String)

/-- `GstNvinfercustomObjectHistory`: inference history of one tracked object. -/
structure ObjectHistory where
  under_inference : Bool
  last_inferred_frame_num : ℕ
  last_accessed_frame_num : ℕ
  last_inferred_coords : RectParams
  cached_info : ObjectInfo
  deriving DecidableEq, Repr

/-- `GstNvinfercustomSourceInfo`: per-source bookkeeping. The object history
map is modelled as an association list from object id to history record. -/
structure SourceInfo where
  object_history_map : List (ℕ × ObjectHistory)
  last_seen_frame_num : ℕ
  last_cleanup_frame_num : ℕ
  deriving DecidableEq, Repr

/-- `NvDsObjectMeta` restricted to the fields `should_infer_object` and
`gst_nvinfer_process_objects` read. -/
structure NvDsObjectMeta where
  unique_component_id : ℤ
  class_id : ℕ
  object_id : ℕ
  rect_params : RectParams
  deriving DecidableEq, Repr

/-- The configuration fields of `GstNvinfercustom` consulted by the embedded
functions. `is_classifier` embeds `IS_CLASSIFIER_INSTANCE (nvinfer)`. -/
structure NvInferConfig where
  operate_on_gie_id : ℤ
  min_input_object_width : ℚ
  min_input_object_height : ℚ
  max_input_object_width : ℚ
  max_input_object_height : ℚ
  operate_on_class_ids : List Bool
  is_classifier : Bool
  secondary_reinfer_interval : ℕ
  classifier_async_mode : Bool
  max_batch_size : ℕ
  deriving DecidableEq, Repr

/-- Area of a rectangle (`rect_params.width * rect_params.height`). -/
def rectArea (r : RectParams) : ℚ := r.width * r.height

/-- Embedding of `should_infer_object` (gstnvinfer.cpp, lines 1496-1547):
decides whether an object must be (re)inferred on. -/
def should_infer_object (nv : NvInferConfig) (obj : NvDsObjectMeta)
    (frame_num : ℕ) (history : Option ObjectHistory) : Bool :=
  if nv.operate_on_gie_id > -1 ∧ obj.unique_component_id ≠ nv.operate_on_gie_id then
    false
  else if obj.rect_params.width < nv.min_input_object_width then
    false
  else if obj.rect_params.height < nv.min_input_object_height then
    false
  else if nv.max_input_object_width > 0 ∧
      obj.rect_params.width > nv.max_input_object_width then
    false
  else if nv.max_input_object_height > 0 ∧
      obj.rect_params.height > nv.max_input_object_height then
    false
  else if ¬ nv.operate_on_class_ids.isEmpty ∧
      (nv.operate_on_class_ids.length ≤ obj.class_id ∨
        nv.operate_on_class_ids.getD obj.class_id false = false) then
    false
  else
    match history with
    | some h =>
      if nv.is_classifier then
        (decide (rectArea h.last_inferred_coords * (1 + REINFER_AREA_THRESHOLD) <
            rectArea obj.rect_params)) ||
        (decide (gulongSub frame_num h.last_inferred_frame_num >
            nv.secondary_reinfer_interval))
      else true
    | none => true

/-- The pure size/class/component filter prefix of `should_infer_object`
(the history-independent checks). -/
def passes_filters (nv : NvInferConfig) (obj : NvDsObjectMeta) : Bool :=
  !(decide (nv.operate_on_gie_id > -1 ∧ obj.unique_component_id ≠ nv.operate_on_gie_id)) &&
  !(decide (obj.rect_params.width < nv.min_input_object_width)) &&
  !(decide (obj.rect_params.height < nv.min_input_object_height)) &&
  !(decide (nv.max_input_object_width > 0 ∧
      obj.rect_params.width > nv.max_input_object_width)) &&
  !(decide (nv.max_input_object_height > 0 ∧
      obj.rect_params.height > nv.max_input_object_height)) &&
  !(decide (¬ nv.operate_on_class_ids.isEmpty ∧
      (nv.operate_on_class_ids.length ≤ obj.class_id ∨
        nv.operate_on_class_ids.getD obj.class_id false = false)))

/-- A classifier configuration with permissive filters and reinference
interval 100, used as concrete input for the reinference-policy claims. -/
def nvC1 : NvInferConfig :=
  { operate_on_gie_id := -1
    min_input_object_width := 0
    min_input_object_height := 0
    max_input_object_width := 0
    max_input_object_height := 0
    operate_on_class_ids := []
    is_classifier := true
    secondary_reinfer_interval := 100
    classifier_async_mode := false
    max_batch_size := 4 }

/-- A history record whose last inferred geometry has area 100, inferred
at frame 10. -/
def histC1 : ObjectHistory :=
  { under_inference := false
    last_inferred_frame_num := 10
    last_accessed_frame_num := 10
    last_inferred_coords := ⟨0, 0, 10, 10⟩
    cached_info := [] }

/-- An object whose current area is exactly `(1 + 0.2) * 100 = 120`: the
exact boundary of the area-growth condition. -/
def objC1 : NvDsObjectMeta :=
  { unique_component_id := 1
    class_id := 0
    object_id := 7
    rect_params := ⟨0, 0, 10, 12⟩ }

/-- Embedding of the per-source body of `cleanup_history_map`
(gstnvinfer.cpp, lines 1471-1491): when the cleanup cadence has elapsed
for the source, record the pass and erase every history entry that is not
under inference and has not been accessed for more than
`CLEANUP_ACCESS_CRITERIA` frames. -/
def cleanup_source (si : SourceInfo) : SourceInfo :=
  if gulongSub si.last_seen_frame_num si.last_cleanup_frame_num <
      MAP_CLEANUP_INTERVAL then si
  else
    { si with
      last_cleanup_frame_num := si.last_seen_frame_num
      object_history_map := si.object_history_map.filter (fun p =>
        p.2.under_inference ||
          !(decide (gulongSub si.last_seen_frame_num p.2.last_accessed_frame_num >
              CLEANUP_ACCESS_CRITERIA))) }

/-- Embedding of `cleanup_history_map` (gstnvinfer.cpp, lines 1465-1492):
the per-source trim applied to every source in the `source_info` map. -/
def cleanup_history_map (m : ℕ → Option SourceInfo) : ℕ → Option SourceInfo :=
  fun id => (m id).map cleanup_source

/-- Clearing a source's object history map (`object_history_map.clear ()`). -/
def clear_history (si : SourceInfo) : SourceInfo :=
  { si with object_history_map := [] }

/-- Embedding of the `GST_NVEVENT_STREAM_EOS` handling in
`gst_nvinfer_sink_event` (gstnvinfer.cpp, lines 701-708): look up the
event's source id in the `source_info` map and, if present, clear only
that source's object history map. -/
def handle_stream_eos (source_info : ℕ → Option SourceInfo)
    (source_id : ℕ) : ℕ → Option SourceInfo :=
  fun id =>
    if id = source_id then (source_info source_id).map clear_history
    else source_info id

/-- Embedding of the under-inference bookkeeping in
`gst_nvinfer_output_loop` (gstnvinfer.cpp, lines 2126-2135): when a
collected batch item's history record is alive, clear `under_inference`
iff the record's `last_inferred_frame_num` equals the item's frame
number. -/
def output_loop_mark_collected (h : ObjectHistory) (frame_num : ℕ) :
    ObjectHistory :=
  if h.last_inferred_frame_num = frame_num then
    { h with under_inference := false }
  else h

/-- Modelled from the spec: `merge_classification_output` is declared in
gstnvinfer_meta_utils.h and called from `gst_nvinfer_output_loop`, but its
definition (gstnvinfer_meta_utils.cpp) is not among the repository source
files. The spec's merge rule: "prefer the new result's attribute unless
the new result leaves that attribute unset, in which case keep the
previous one", applied per attribute slot. -/
def merge_classification_output : ObjectInfo → ObjectInfo → ObjectInfo
  | old, [] => old
  | [], upd => upd
  | o :: old, u :: upd =>
    (match u with
      | some a => some a
      | none => o) :: merge_classification_output old upd

/-- Concrete history record for exercising the collection bookkeeping:
under inference since its submission at frame 5. -/
def histC7 : ObjectHistory :=
  { under_inference := true
    last_inferred_frame_num := 5
    last_accessed_frame_num := 5
    last_inferred_coords := ⟨0, 0, 20, 20⟩
    cached_info := [] }

/-- Concrete source info with a due cleanup pass: one stale record (not
accessed for 200 > 150 frames) and one equally old record that is still
under inference. -/
def siC4 : SourceInfo :=
  { object_history_map :=
      [(1, { under_inference := false
             last_inferred_frame_num := 1800
             last_accessed_frame_num := 1800
             last_inferred_coords := ⟨0, 0, 20, 20⟩
             cached_info := [] }),
       (2, { under_inference := true
             last_inferred_frame_num := 1800
             last_accessed_frame_num := 1800
             last_inferred_coords := ⟨0, 0, 20, 20⟩
             cached_info := [] })]
    last_seen_frame_num := 2000
    last_cleanup_frame_num := 0 }

/-- Concrete per-source map with two attached sources (ids 3 and 4), each
holding one history record. -/
def mC9 : ℕ → Option SourceInfo :=
  fun id =>
    if id = 3 then
      some { object_history_map := [(7, histC7)]
             last_seen_frame_num := 40
             last_cleanup_frame_num := 0 }
    else if id = 4 then
      some { object_history_map := [(9, histC7)]
             last_seen_frame_num := 50
             last_cleanup_frame_num := 10 }
    else none

/-- The kind of a `GstNvinfercustomBatch` travelling through the two
queues: an inference batch with frames, a push-buffer batch
(`push_buffer = TRUE`), an event-marker batch (`event_marker = TRUE`), or
a frame-less batch that only carries deferred metadata attachments. Only
inference batches are handed to the engine's `queueInputBatch`
(gstnvinfer.cpp line 1349). -/
inductive BatchKind where
  | inferBatch
  | pushBuffer
  | eventMarker
  | deferredOnly
  deriving DecidableEq, Repr

/-- A batch as seen by the queueing layer: its kind and a sequence tag
identifying it (`inbuf_batch_num` serves this diagnostic role in the
code). -/
structure QueuedBatch where
  kind : BatchKind
  tag : ℕ
  deriving DecidableEq, Repr

/-- State of the element's two-queue pipeline. `input_queue` and
`process_queue` are the element's two GQueues with the head at the front;
`collected` lists the batches popped by the output loop, in order;
`dropped` lists the batches discarded after a failed `queueInputBatch`;
`submitted` lists every batch ever pushed at the tail of the input queue,
in order; `errors` counts the stream errors raised by the input-queue
loop. -/
structure PipeState where
  input_queue : List QueuedBatch
  process_queue : List QueuedBatch
  collected : List QueuedBatch
  dropped : List QueuedBatch
  submitted : List QueuedBatch
  errors : ℕ
  deriving DecidableEq, Repr

/-- Initial pipeline state: both queues empty, nothing processed. -/
def initPipe : PipeState := ⟨[], [], [], [], [], 0⟩

/-- One step of the two-queue pipeline. `submit` models a caller pushing a
batch at the tail of the input queue (`convert_batch_and_push_to_input_thread`
line 1457, `gst_nvinfer_submit_input_buffer` line 1906,
`gst_nvinfer_sink_event` line 673). `transfer` models one iteration of
`gst_nvinfer_input_queue_loop`: pop the input queue head (line 1344) and,
after a successful — or bypassed, for markers/push-buffer/empty batches —
engine submission, push the same batch at the tail of the process queue
(line 1405). `transfer_fail` models the same iteration when the blocking
`queueInputBatch` fails (lines 1396-1399): a stream error is reported and
the loop continues without pushing the batch. `collect` models one
iteration of `gst_nvinfer_output_loop` popping the process queue head
(line 2014). -/
inductive PipeStep : PipeState → PipeState → Prop where
  | submit (s : PipeState) (b : QueuedBatch) :
      PipeStep s { s with input_queue := s.input_queue ++ [b],
                          submitted := s.submitted ++ [b] }
  | transfer (s : PipeState) (b : QueuedBatch) (rest : List QueuedBatch)
      (hq : s.input_queue = b :: rest) :
      PipeStep s { s with input_queue := rest,
                          process_queue := s.process_queue ++ [b] }
  | transfer_fail (s : PipeState) (b : QueuedBatch) (rest : List QueuedBatch)
      (hq : s.input_queue = b :: rest) (hk : b.kind = BatchKind.inferBatch) :
      PipeStep s { s with input_queue := rest,
                          dropped := s.dropped ++ [b],
                          errors := s.errors + 1 }
  | collect (s : PipeState) (b : QueuedBatch) (rest : List QueuedBatch)
      (hq : s.process_queue = b :: rest) :
      PipeStep s { s with process_queue := rest,
                          collected := s.collected ++ [b] }

/-- Reachability of a pipeline state from the initial state. -/
def PipeReachable (s : PipeState) : Prop :=
  Relation.ReflTransGen PipeStep initPipe s

/-- The wait condition of the serialized-event barrier: the caller thread
of `gst_nvinfer_sink_event` proceeds past its two wait loops exactly when
both the input queue and the process queue are empty (gstnvinfer.cpp
lines 678-683). -/
def event_wait_done (s : PipeState) : Bool :=
  s.input_queue.isEmpty && s.process_queue.isEmpty

/-- Concrete inference batch used in the pipeline runs. -/
def bInfer : QueuedBatch := ⟨BatchKind.inferBatch, 1⟩

/-- Concrete push-buffer batch (carries the frame handle downstream). -/
def bPush : QueuedBatch := ⟨BatchKind.pushBuffer, 2⟩

/-- Concrete event-marker batch. -/
def bMarker : QueuedBatch := ⟨BatchKind.eventMarker, 3⟩

/-- Pipeline state after submitting, transferring and collecting the
batches `bInfer`, `bPush`, `bMarker` in order. -/
def sC2 : PipeState :=
  ⟨[], [], [bInfer, bPush, bMarker], [], [bInfer, bPush, bMarker], 0⟩

/-- Pipeline state after an inference batch and a subsequent event marker
have fully drained through both queues. -/
def sC5 : PipeState := ⟨[], [], [bInfer, bMarker], [], [bInfer, bMarker], 0⟩

/-- Pipeline state after `queueInputBatch` failed for `bInfer` (dropped,
one stream error) while the push-buffer batch for the same input buffer
flowed through normally. -/
def sC6 : PipeState := ⟨[], [], [bPush], [bInfer], [bInfer, bPush], 1⟩

/-- Outcome of the external conversion calls made for one object inside
`gst_nvinfer_process_objects`: `get_converted_mat` failing makes the loop
skip the object (`continue`, lines 1730-1732), `get_converted_buffer`
failing aborts the whole call with `GST_FLOW_ERROR` (lines 1754-1757). -/
inductive ConvResult where
  | ok
  | matFail
  | bufFail
  deriving DecidableEq, Repr

/-- One object consumed by the per-object loop of
`gst_nvinfer_process_objects`, together with the outcomes of the external
buffer-pool acquisition (`gst_buffer_pool_acquire_buffer`) and conversion
calls made for it. -/
structure ProcObject where
  meta : NvDsObjectMeta
  frame_num : ℕ
  acquire_ok : Bool
  conv : ConvResult
  deriving DecidableEq, Repr

/-- One entry of `batch->frames` (`GstNvinfercustomFrame`), restricted to
the fields the claims are about. -/
structure BatchFrame where
  frame_num : ℕ
  object_id : ℕ
  deriving DecidableEq, Repr

/-- A `GstNvinfercustomBatch` as built by `gst_nvinfer_process_objects`:
its frames and its deferred reuse entries (`objs_pending_meta_attach`,
stored as object ids), which never count toward `frames.size ()`. -/
structure ObjBatch where
  frames : List BatchFrame
  objs_pending_meta_attach : List ℕ
  deriving DecidableEq, Repr

/-- State threaded through the per-object loop of
`gst_nvinfer_process_objects` for one source: the batch under
construction (if allocated), the batches already handed to
`convert_batch_and_push_to_input_thread` in order, the source's object
history map, the untracked-object warn bookkeeping, and the list of PTS
values at which the untracked-object warning was emitted. -/
structure ProcState where
  batch : Option ObjBatch
  submitted : List ObjBatch
  object_history_map : List (ℕ × ObjectHistory)
  untracked_object_warn_pts : Option ℕ
  warn_untracked_object : Bool
  warnings : List ℕ
  deriving DecidableEq, Repr

/-- Result of one loop iteration (or a whole call): `ok` continues,
`error` embeds the early `return GST_FLOW_ERROR` / `return flow_ret`
paths, which abandon the batch under construction without submitting
it. -/
inductive FlowResult where
  | ok (s : ProcState)
  | error (s : ProcState)
  deriving DecidableEq, Repr

/-- The state carried by either flow outcome. -/
def resultState : FlowResult → ProcState
  | FlowResult.ok s => s
  | FlowResult.error s => s

/-- Point update of a history record through the shared map (mutation via
the `shared_ptr` obtained from the map). -/
def updateHistory (m : List (ℕ × ObjectHistory)) (id : ℕ)
    (f : ObjectHistory → ObjectHistory) : List (ℕ × ObjectHistory) :=
  m.map (fun p => if p.1 = id then (p.1, f p.2) else p)

/-- Appending one converted frame to the batch under construction
(gstnvinfer.cpp lines 1726-1784): on conversion success the frame is
pushed and, when `frames.size ()` reaches `max_batch_size`, the batch is
closed and handed onward; `matFail` skips the object; `bufFail` aborts
the call. -/
def appendFrame (nv : NvInferConfig) (s : ProcState) (b : ObjBatch)
    (o : ProcObject) : FlowResult :=
  match o.conv with
  | ConvResult.matFail => FlowResult.ok { s with batch := some b }
  | ConvResult.bufFail => FlowResult.error { s with batch := some b }
  | ConvResult.ok =>
    if (b.frames ++ [(⟨o.frame_num, o.meta.object_id⟩ : BatchFrame)]).length =
        nv.max_batch_size then
      FlowResult.ok { s with
        batch := none
        submitted := s.submitted ++
          [⟨b.frames ++ [(⟨o.frame_num, o.meta.object_id⟩ : BatchFrame)],
            b.objs_pending_meta_attach⟩] }
    else
      FlowResult.ok { s with batch := (some
        { b with frames := b.frames ++ [(⟨o.frame_num, o.meta.object_id⟩ : BatchFrame)] }) }

/-- The declined-classifier branch (gstnvinfer.cpp lines 1635-1665):
record the object for deferred reuse-latest-result attachment and touch
its `last_accessed_frame_num`. -/
def deferAttach (s : ProcState) (b : ObjBatch) (o : ProcObject) : ProcState :=
  { s with
    object_history_map := updateHistory s.object_history_map
      o.meta.object_id
      (fun h => { h with last_accessed_frame_num := o.frame_num })
    batch := some { b with objs_pending_meta_attach :=
      b.objs_pending_meta_attach ++ [o.meta.object_id] } }

/-- The history lookup at the top of the per-object loop (gstnvinfer.cpp
lines 1621-1628): only objects with a valid tracking id are looked up. -/
def lookup_history (s : ProcState) (o : ProcObject) : Option ObjectHistory :=
  if o.meta.object_id ≠ UNTRACKED_OBJECT_ID then
    s.object_history_map.lookup o.meta.object_id
  else none

/-- The history bookkeeping performed before an accepted object is
converted (gstnvinfer.cpp lines 1671-1702): in async mode the cached
result is attached and `last_accessed_frame_num` touched; a tracked
object with no record gets a fresh one; a tracked object's record is
marked under inference with the current frame number and geometry. -/
def infer_update_history (s : ProcState) (o : ProcObject)
    (hist : Option ObjectHistory) (async_mode : Bool) : ProcState :=
  let s1 := if hist.isSome = true ∧ async_mode = true then
      { s with object_history_map := (updateHistory s.object_history_map
          o.meta.object_id
          (fun h => { h with last_accessed_frame_num := o.frame_num })) }
    else s
  let s2 := if o.meta.object_id ≠ UNTRACKED_OBJECT_ID ∧ hist = none then
      { s1 with object_history_map := ((o.meta.object_id,
          (⟨false, 0, 0, ⟨0, 0, 0, 0⟩, []⟩ : ObjectHistory)) ::
            s1.object_history_map) }
    else s1
  if o.meta.object_id ≠ UNTRACKED_OBJECT_ID then
    { s2 with object_history_map := (updateHistory s2.object_history_map
        o.meta.object_id
        (fun h =>
          { h with under_inference := true
                   last_inferred_frame_num := o.frame_num
                   last_accessed_frame_num := o.frame_num
                   last_inferred_coords := o.meta.rect_params })) }
  else s2

/-- Embedding of one iteration of the per-object loop of
`gst_nvinfer_process_objects` (gstnvinfer.cpp lines 1596-1785) for a
single source. -/
def process_object (nv : NvInferConfig) (pts : ℕ) (s : ProcState)
    (o : ProcObject) : FlowResult :=
  if nv.classifier_async_mode = true ∧ o.meta.object_id = UNTRACKED_OBJECT_ID then
    if s.warn_untracked_object = false then
      if s.untracked_object_warn_pts = none ∨
          ∃ t, s.untracked_object_warn_pts = some t ∧
            gulongSub pts t > UNTRACKED_OBJECT_WARN_INTERVAL then
        FlowResult.ok { s with
          warnings := s.warnings ++ [pts]
          untracked_object_warn_pts := some pts
          warn_untracked_object := true }
      else
        FlowResult.ok { s with warn_untracked_object := true }
    else
      FlowResult.ok s
  else
    if should_infer_object nv o.meta o.frame_num (lookup_history s o) = false then
      if nv.is_classifier = true ∧ (lookup_history s o).isSome = true ∧
          nv.classifier_async_mode = false then
        match s.batch with
        | some b => FlowResult.ok (deferAttach s b o)
        | none =>
          if o.acquire_ok then FlowResult.ok (deferAttach s ⟨[], []⟩ o)
          else FlowResult.error s
      else
        FlowResult.ok s
    else
      match (infer_update_history s o (lookup_history s o)
          nv.classifier_async_mode).batch with
      | some b =>
        appendFrame nv
          (infer_update_history s o (lookup_history s o)
            nv.classifier_async_mode) b o
      | none =>
        if o.acquire_ok then
          appendFrame nv
            (infer_update_history s o (lookup_history s o)
              nv.classifier_async_mode) ⟨[], []⟩ o
        else
          FlowResult.error (infer_update_history s o (lookup_history s o)
            nv.classifier_async_mode)

/-- The per-object loop over the batch's objects in order; an error
aborts the remaining iterations (the early `return`s of
`gst_nvinfer_process_objects`). -/
def process_objects_loop (nv : NvInferConfig) (pts : ℕ) :
    ProcState → List ProcObject → FlowResult
  | s, [] => FlowResult.ok s
  | s, o :: os =>
    match process_object nv pts s o with
    | FlowResult.ok s1 => process_objects_loop nv pts s1 os
    | FlowResult.error s1 => FlowResult.error s1

/-- The final non-full-batch submission of `gst_nvinfer_process_objects`
(gstnvinfer.cpp lines 1788-1802): a leftover batch (possibly with zero
frames but pending deferred attachments) is still handed onward. -/
def finalize_batch (s : ProcState) : ProcState :=
  match s.batch with
  | none => s
  | some b => { s with batch := none, submitted := s.submitted ++ [b] }

/-- Embedding of `gst_nvinfer_process_objects` for a single source:
the per-object loop from an empty batch followed by the final submission;
on an error path the batch under construction is destroyed without being
handed onward. -/
def gst_nvinfer_process_objects (nv : NvInferConfig) (pts : ℕ)
    (hist0 : List (ℕ × ObjectHistory)) (warn_pts0 : Option ℕ)
    (objs : List ProcObject) : FlowResult :=
  match process_objects_loop nv pts
      ⟨none, [], hist0, warn_pts0, false, []⟩ objs with
  | FlowResult.ok s => FlowResult.ok (finalize_batch s)
  | FlowResult.error s => FlowResult.error s

/-- A detector configuration with permissive filters and max batch size
2, used as concrete input for the batch-size claim. -/
def nvC3 : NvInferConfig :=
  { operate_on_gie_id := -1
    min_input_object_width := 0
    min_input_object_height := 0
    max_input_object_width := 0
    max_input_object_height := 0
    operate_on_class_ids := []
    is_classifier := false
    secondary_reinfer_interval := 0
    classifier_async_mode := false
    max_batch_size := 2 }

/-- Three accepted tracked objects arriving at frame 5: enough to close
one full batch of two frames and leave a partial batch of one. -/
def objsC3 : List ProcObject :=
  [⟨⟨1, 0, 1, ⟨0, 0, 20, 20⟩⟩, 5, true, ConvResult.ok⟩,
   ⟨⟨1, 0, 2, ⟨0, 0, 20, 20⟩⟩, 5, true, ConvResult.ok⟩,
   ⟨⟨1, 0, 3, ⟨0, 0, 20, 20⟩⟩, 5, true, ConvResult.ok⟩]

/-- A classifier configuration operating in asynchronous mode. -/
def nvC10 : NvInferConfig :=
  { nvC3 with is_classifier := true, classifier_async_mode := true }

/-- Loop state with a previous untracked-object warning at PTS 3. -/
def sC10 : ProcState := ⟨none, [], [], some 3, false, []⟩

/-- An object carrying the untracked-object sentinel id. -/
def oC10 : ProcObject :=
  ⟨⟨1, 0, UNTRACKED_OBJECT_ID, ⟨0, 0, 20, 20⟩⟩, 5, true, ConvResult.ok⟩

end GstNvInfer

namespace GstNvInfer

/-- C1. Counterexample to the claim as stated: for a classifier instance,
an object that passes every filter and has a history record, whose current
area (120) is *at least* `(1 + 0.2)` times the area at last inference
(100), and whose frame gap (10) does not exceed the reinference interval
(100). The claim's condition (a) holds (`120 ≥ 1.2 * 100`), so the claim
requires `should_infer_object` to return true; the code compares with a
strict `<` and returns false. -/
theorem C1_counterexample :
    nvC1.is_classifier = true ∧
    passes_filters nvC1 objC1 = true ∧
    rectArea objC1.rect_params ≥
      (1 + REINFER_AREA_THRESHOLD) * rectArea histC1.last_inferred_coords ∧
    should_infer_object nvC1 objC1 20 (some histC1) = false := by
  refine ⟨rfl, ?_, ?_, ?_⟩
  · simp [passes_filters, nvC1, objC1]
  · simp [rectArea, objC1, histC1, REINFER_AREA_THRESHOLD]
    norm_num
  · simp [should_infer_object, nvC1, objC1, histC1, rectArea,
      REINFER_AREA_THRESHOLD, gulongSub, GULONG_MOD]
    norm_num

/-- C1 (amended). For every classifier instance and every object that
passes the size/class/component filters and has an existing history
record, `should_infer_object` returns true if and only if either (a) the
object's current area *strictly exceeds* `(1 + 0.2)` times the area
recorded at the last inference, or (b) the number of frames elapsed since
`last_inferred_frame_num` exceeds the configured reinference interval;
when neither holds it returns false. -/
theorem C1_should_infer_classifier_iff (nv : NvInferConfig)
    (obj : NvDsObjectMeta) (frame_num : ℕ) (h : ObjectHistory)
    (hcls : nv.is_classifier = true)
    (hfil : passes_filters nv obj = true)
    (hle : h.last_inferred_frame_num ≤ frame_num)
    (hmod : frame_num < GULONG_MOD) :
    should_infer_object nv obj frame_num (some h) = true ↔
      (rectArea h.last_inferred_coords * (1 + REINFER_AREA_THRESHOLD) <
          rectArea obj.rect_params ∨
        frame_num - h.last_inferred_frame_num >
          nv.secondary_reinfer_interval) := by
  simp only [passes_filters, Bool.and_eq_true, Bool.not_eq_true',
    decide_eq_false_iff_not] at hfil
  obtain ⟨⟨⟨⟨⟨h1, h2⟩, h3⟩, h4⟩, h5⟩, h6⟩ := hfil
  unfold should_infer_object
  rw [if_neg h1, if_neg h2, if_neg h3, if_neg h4, if_neg h5, if_neg h6]
  simp only [hcls, if_true, Bool.or_eq_true, decide_eq_true_eq,
    gulongSub_eq_sub frame_num h.last_inferred_frame_num hle hmod]

/-- C1 witness: the amended theorem applied at frame 200, where the frame
gap (190) exceeds the interval (100) and the policy fires. -/
theorem C1_should_infer_classifier_iff_witness :
    should_infer_object nvC1 objC1 200 (some histC1) = true ↔
      (rectArea histC1.last_inferred_coords * (1 + REINFER_AREA_THRESHOLD) <
          rectArea objC1.rect_params ∨
        200 - histC1.last_inferred_frame_num >
          nvC1.secondary_reinfer_interval) :=
  C1_should_infer_classifier_iff nvC1 objC1 200 histC1 rfl
    (by simp [passes_filters, nvC1, objC1])
    (by simp [histC1]) (by decide)

/-- C4. At a cleanup pass that is due for a source (cadence elapsed), a
history record of that source survives the pass iff it is under inference
or its last access is at most `CLEANUP_ACCESS_CRITERIA` (150) frames
behind the source's last seen frame; in particular a record with
`under_inference = true` is never erased, regardless of its age. -/
theorem C4_cleanup_eviction (si : SourceInfo)
    (hpass : ¬ (gulongSub si.last_seen_frame_num si.last_cleanup_frame_num <
      MAP_CLEANUP_INTERVAL))
    (id : ℕ) (rec : ObjectHistory)
    (hmem : (id, rec) ∈ si.object_history_map)
    (hacc : rec.last_accessed_frame_num ≤ si.last_seen_frame_num)
    (hmod : si.last_seen_frame_num < GULONG_MOD) :
    ((id, rec) ∈ (cleanup_source si).object_history_map ↔
      (rec.under_inference = true ∨
        si.last_seen_frame_num - rec.last_accessed_frame_num ≤
          CLEANUP_ACCESS_CRITERIA)) ∧
    (rec.under_inference = true →
      (id, rec) ∈ (cleanup_source si).object_history_map) := by
  have hsub := gulongSub_eq_sub si.last_seen_frame_num
    rec.last_accessed_frame_num hacc hmod
  unfold cleanup_source
  rw [if_neg hpass]
  constructor
  · simp [List.mem_filter, hmem, hsub, not_lt]
  · intro hu
    simp [List.mem_filter, hmem, hu]

/-- C4 witness: concrete source `siC4` (cleanup due, last seen frame
2000): the record of object 2, stale for 200 frames but under inference,
survives the pass. -/
theorem C4_cleanup_eviction_witness :
    (2, { under_inference := true
          last_inferred_frame_num := 1800
          last_accessed_frame_num := 1800
          last_inferred_coords := ⟨0, 0, 20, 20⟩
          cached_info := [] : ObjectHistory }) ∈
      (cleanup_source siC4).object_history_map :=
  (C4_cleanup_eviction siC4
      (by norm_num [gulongSub, GULONG_MOD, MAP_CLEANUP_INTERVAL, siC4])
      2
      { under_inference := true
        last_inferred_frame_num := 1800
        last_accessed_frame_num := 1800
        last_inferred_coords := ⟨0, 0, 20, 20⟩
        cached_info := [] }
      (by simp [siC4]) (by norm_num [siC4])
      (by norm_num [siC4, GULONG_MOD])).2 rfl

/-- C7. When a batch item is collected and its history record is alive,
`under_inference` ends up false exactly when the record's
`last_inferred_frame_num` equals the item's frame number (or was already
false); when a later submission has moved `last_inferred_frame_num` past
this item's frame number, the record is left entirely unchanged. -/
theorem C7_under_inference_cleared_iff (h : ObjectHistory) (n : ℕ) :
    ((output_loop_mark_collected h n).under_inference = false ↔
      (h.last_inferred_frame_num = n ∨ h.under_inference = false)) ∧
    (h.last_inferred_frame_num = n →
      output_loop_mark_collected h n = { h with under_inference := false }) ∧
    (h.last_inferred_frame_num ≠ n → output_loop_mark_collected h n = h) := by
  unfold output_loop_mark_collected
  by_cases he : h.last_inferred_frame_num = n <;> simp [he]

/-- C7 witness: collecting frame 5 for `histC7` (submitted at frame 5)
clears the flag; the theorem applied at the record after a superseding
resubmission at frame 9 leaves it under inference. -/
theorem C7_under_inference_cleared_iff_witness :
    output_loop_mark_collected histC7 5 =
      { histC7 with under_inference := false } ∧
    output_loop_mark_collected { histC7 with last_inferred_frame_num := 9 } 5 =
      { histC7 with last_inferred_frame_num := 9 } :=
  ⟨(C7_under_inference_cleared_iff histC7 5).2.1 (by simp [histC7]),
   (C7_under_inference_cleared_iff
      { histC7 with last_inferred_frame_num := 9 } 5).2.2 (by simp [histC7])⟩

/-- Helper: the per-slot description of the spec-modelled merge. -/
theorem merge_classification_output_getD (old upd : ObjectInfo) (i : ℕ) :
    (merge_classification_output old upd).getD i none =
      if (upd.getD i none).isSome then upd.getD i none
      else old.getD i none := by
  induction upd generalizing old i with
  | nil => simp [merge_classification_output]
  | cons u upd ih =>
    cases old with
    | nil =>
      simp only [merge_classification_output]
      cases hu : (u :: upd).getD i none <;> simp
    | cons o old =>
      cases i with
      | zero => cases u <;> simp [merge_classification_output]
      | succ i =>
        simpa [merge_classification_output] using ih old i

/-- C8. Merging a new classifier result into a cached result keeps, for
every attribute slot, the new result's value unless the new result leaves
the slot unset, in which case the previous cached value is kept; in
particular merging `[unset, "cat"]` into `["dog", unset]` yields
`["dog", "cat"]`. -/
theorem C8_merge_classification :
    (∀ old upd : ObjectInfo, ∀ i : ℕ,
      (merge_classification_output old upd).getD i none =
        if (upd.getD i none).isSome then upd.getD i none
        else old.getD i none) ∧
    merge_classification_output [some "dog", none] [none, some "cat"] =
      [some "dog", some "cat"] :=
  ⟨merge_classification_output_getD, rfl⟩

/-- C9. A stream-EOS event for source S clears only S's object history
map: S's entry survives (cleared, not destroyed, with its other
bookkeeping intact) and every other source's entry is untouched. -/
theorem C9_stream_eos_clears_only_source (m : ℕ → Option SourceInfo)
    (S : ℕ) :
    (∀ si, m S = some si →
      handle_stream_eos m S S = some { si with object_history_map := [] }) ∧
    ((handle_stream_eos m S S).isSome = (m S).isSome) ∧
    (∀ id, id ≠ S → handle_stream_eos m S id = m id) := by
  refine ⟨?_, ?_, ?_⟩
  · intro si h
    simp [handle_stream_eos, h, clear_history]
  · simp [handle_stream_eos]
  · intro id hid
    simp [handle_stream_eos, hid]

/-- C9 witness: stream EOS for source 3 of `mC9` empties source 3's
history map, keeps its entry and bookkeeping, and leaves source 4
untouched. -/
theorem C9_stream_eos_clears_only_source_witness :
    handle_stream_eos mC9 3 3 =
      some { object_history_map := []
             last_seen_frame_num := 40
             last_cleanup_frame_num := 0 } ∧
    handle_stream_eos mC9 3 4 = mC9 4 :=
  ⟨(C9_stream_eos_clears_only_source mC9 3).1
      { object_history_map := [(7, histC7)]
        last_seen_frame_num := 40
        last_cleanup_frame_num := 0 } (by simp [mC9]),
   (C9_stream_eos_clears_only_source mC9 3).2.2 4 (by simp)⟩

/-- Helper: the central invariant of the two-queue pipeline. In every
reachable state, the batches already collected, followed by the process
queue and the input queue, form a sublist of the submission order; the
four destinations account for every submitted batch; only inference
batches are ever dropped; and one stream error has been reported per
dropped batch. -/
theorem pipe_inv (s : PipeState) (hs : PipeReachable s) :
    (s.collected ++ s.process_queue ++ s.input_queue).Sublist s.submitted ∧
    s.collected.length + s.process_queue.length + s.input_queue.length +
      s.dropped.length = s.submitted.length ∧
    (∀ b ∈ s.dropped, b.kind = BatchKind.inferBatch) ∧
    s.errors = s.dropped.length := by
  induction hs with
  | refl => simp [initPipe]
  | tail _ hstep ih =>
    obtain ⟨ih1, ih2, ih3, ih4⟩ := ih
    cases hstep with
    | submit b =>
      refine ⟨?_, ?_, ih3, ih4⟩
      · simpa [← List.append_assoc] using ih1.append (List.Sublist.refl [b])
      · simp only [List.length_append, List.length_singleton]
        omega
    | transfer b rest hq =>
      rw [hq] at ih1 ih2
      refine ⟨?_, ?_, ih3, ih4⟩
      · simpa [List.append_assoc] using ih1
      · simp only [List.length_append, List.length_singleton, List.length_nil,
          List.length_cons] at ih2 ⊢
        omega
    | transfer_fail b rest hq hk =>
      rw [hq] at ih1 ih2
      refine ⟨?_, ?_, ?_, ?_⟩
      · refine List.Sublist.trans ?_ ih1
        exact (List.Sublist.refl _).append ((List.sublist_cons_self b rest))
      · simp only [List.length_append, List.length_singleton, List.length_nil,
          List.length_cons] at ih2 ⊢
        omega
      · intro x hx
        rcases List.mem_append.mp hx with hx | hx
        · exact ih3 x hx
        · rw [List.mem_singleton.mp hx]; exact hk
      · simp [ih4]
    | collect b rest hq =>
      rw [hq] at ih1 ih2
      refine ⟨?_, ?_, ih3, ih4⟩
      · simpa [List.append_assoc] using ih1
      · simp only [List.length_append, List.length_singleton, List.length_nil,
          List.length_cons] at ih2 ⊢
        omega

/-- Helper: the input-queue loop can always drain the input queue into
the process queue. -/
theorem pipe_transfer_all (iq pq col drop sub : List QueuedBatch) (e : ℕ) :
    Relation.ReflTransGen PipeStep ⟨iq, pq, col, drop, sub, e⟩
      ⟨[], pq ++ iq, col, drop, sub, e⟩ := by
  induction iq generalizing pq with
  | nil => simpa using Relation.ReflTransGen.refl
  | cons b iq ih =>
    refine Relation.ReflTransGen.head
      (PipeStep.transfer ⟨b :: iq, pq, col, drop, sub, e⟩ b iq rfl) ?_
    simpa [List.append_assoc] using ih (pq ++ [b])

/-- Helper: the output loop can always drain the process queue into the
collected list. -/
theorem pipe_collect_all (pq col drop sub : List QueuedBatch) (e : ℕ) :
    Relation.ReflTransGen PipeStep ⟨[], pq, col, drop, sub, e⟩
      ⟨[], [], col ++ pq, drop, sub, e⟩ := by
  induction pq generalizing col with
  | nil => simpa using Relation.ReflTransGen.refl
  | cons b pq ih =>
    refine Relation.ReflTransGen.head
      (PipeStep.collect ⟨[], b :: pq, col, drop, sub, e⟩ b pq rfl) ?_
    simpa [List.append_assoc] using ih (col ++ [b])

/-- C2. In every reachable pipeline state the collected batches appear in
their submission order (they form a sublist of the submission sequence),
and as long as no engine failure dropped a batch the collected sequence
is exactly an initial segment of the submission sequence: batches
(including push-buffer and event-marker batches) leave the pipeline in
the order they entered. -/
theorem C2_fifo_preserved (s : PipeState) (hs : PipeReachable s) :
    s.collected.Sublist s.submitted ∧
    (s.dropped = [] → s.collected <+: s.submitted) := by
  obtain ⟨h1, h2, _, _⟩ := pipe_inv s hs
  constructor
  · exact ((List.sublist_append_left _ _).trans
      (List.sublist_append_left _ _)).trans h1
  · intro hd
    have hlen : (s.collected ++ s.process_queue ++ s.input_queue).length =
        s.submitted.length := by
      simp only [List.length_append]
      rw [hd] at h2
      simpa using h2
    have heq := h1.eq_of_length hlen
    have hpre : s.collected <+:
        (s.collected ++ s.process_queue ++ s.input_queue) := by
      rw [List.append_assoc]
      exact List.prefix_append _ _
    rwa [heq] at hpre

/-- C2 witness: the run submitting `bInfer`, `bPush`, `bMarker`, then
transferring and collecting all three, ends in `sC2` with the collected
order equal to the submission order. -/
theorem C2_fifo_preserved_witness :
    sC2.collected.Sublist sC2.submitted ∧
    (sC2.dropped = [] → sC2.collected <+: sC2.submitted) :=
  C2_fifo_preserved sC2 (by
    refine Relation.ReflTransGen.head (PipeStep.submit initPipe bInfer) ?_
    refine Relation.ReflTransGen.head (PipeStep.submit _ bPush) ?_
    refine Relation.ReflTransGen.head (PipeStep.submit _ bMarker) ?_
    refine Relation.ReflTransGen.head
      (PipeStep.transfer _ bInfer [bPush, bMarker] rfl) ?_
    refine Relation.ReflTransGen.head
      (PipeStep.transfer _ bPush [bMarker] rfl) ?_
    refine Relation.ReflTransGen.head (PipeStep.transfer _ bMarker [] rfl) ?_
    refine Relation.ReflTransGen.head
      (PipeStep.collect _ bInfer [bPush, bMarker] rfl) ?_
    refine Relation.ReflTransGen.head (PipeStep.collect _ bPush [bMarker] rfl) ?_
    refine Relation.ReflTransGen.head (PipeStep.collect _ bMarker [] rfl) ?_
    exact Relation.ReflTransGen.refl)

/-- C5. The serialized-event barrier: the caller that enqueued the event
marker proceeds only once `event_wait_done` holds (both queues empty,
gstnvinfer.cpp lines 678-683); in any reachable such state where no batch
was dropped, every batch submitted before the wait completed — the event
marker and everything enqueued ahead of it — has already been collected,
in submission order, so the event is never reordered ahead of earlier
batches. -/
theorem C5_event_barrier (s : PipeState) (hs : PipeReachable s)
    (hwait : event_wait_done s = true) (hnd : s.dropped = []) :
    s.collected = s.submitted := by
  obtain ⟨h1, h2, _, _⟩ := pipe_inv s hs
  simp only [event_wait_done, Bool.and_eq_true, List.isEmpty_iff] at hwait
  obtain ⟨hiq, hpq⟩ := hwait
  rw [hiq, hpq] at h1 h2
  simp only [List.append_nil] at h1
  refine h1.eq_of_length ?_
  rw [hnd] at h2
  simpa using h2

/-- C5 witness: after `bInfer` and the event marker `bMarker` drain
through both queues (state `sC5`), the wait condition holds and the
collected sequence equals the submission sequence. -/
theorem C5_event_barrier_witness : sC5.collected = sC5.submitted :=
  C5_event_barrier sC5 (by
    refine Relation.ReflTransGen.head (PipeStep.submit initPipe bInfer) ?_
    refine Relation.ReflTransGen.head (PipeStep.submit _ bMarker) ?_
    refine Relation.ReflTransGen.head
      (PipeStep.transfer _ bInfer [bMarker] rfl) ?_
    refine Relation.ReflTransGen.head (PipeStep.transfer _ bMarker [] rfl) ?_
    refine Relation.ReflTransGen.head
      (PipeStep.collect _ bInfer [bMarker] rfl) ?_
    refine Relation.ReflTransGen.head (PipeStep.collect _ bMarker [] rfl) ?_
    exact Relation.ReflTransGen.refl) rfl rfl

/-- C6. Engine-failure handling: in every reachable state, exactly one
stream error has been reported per dropped batch; only inference batches
are ever dropped — in particular the push-buffer batch that forwards the
offending batch's frame handle downstream is never dropped — and from any
such state the pipeline can continue: every batch still in either queue
(the frame-forwarding batch and all subsequent batches among them) can be
drained to collection, in order, with no further drops. -/
theorem C6_engine_failure_handling (s : PipeState) (hs : PipeReachable s) :
    s.errors = s.dropped.length ∧
    (∀ b ∈ s.dropped, b.kind = BatchKind.inferBatch) ∧
    ∃ t : PipeState, Relation.ReflTransGen PipeStep s t ∧
      t.collected = s.collected ++ s.process_queue ++ s.input_queue ∧
      t.dropped = s.dropped ∧ t.submitted = s.submitted := by
  obtain ⟨_, _, h3, h4⟩ := pipe_inv s hs
  refine ⟨h4, h3,
    ⟨[], [], s.collected ++ s.process_queue ++ s.input_queue, s.dropped,
      s.submitted, s.errors⟩, ?_, rfl, rfl, rfl⟩
  have ht := pipe_transfer_all s.input_queue s.process_queue s.collected
    s.dropped s.submitted s.errors
  have hc := pipe_collect_all (s.process_queue ++ s.input_queue) s.collected
    s.dropped s.submitted s.errors
  simpa [List.append_assoc] using ht.trans hc

/-- Helper: the history bookkeeping of an accepted object touches neither
the batch under construction nor the submitted batches. -/
theorem infer_update_history_queues (s : ProcState) (o : ProcObject)
    (hist : Option ObjectHistory) (am : Bool) :
    (infer_update_history s o hist am).batch = s.batch ∧
    (infer_update_history s o hist am).submitted = s.submitted := by
  simp only [infer_update_history]
  constructor <;> (split <;> split <;> split) <;> rfl

/-- Helper: appending one frame preserves the batch-size invariant —
submitted batches stay within `max_batch_size` and the batch left under
construction stays strictly below it. -/
theorem appendFrame_C3inv (nv : NvInferConfig) (s : ProcState) (b : ObjBatch)
    (o : ProcObject)
    (h1 : ∀ b' ∈ s.submitted, b'.frames.length ≤ nv.max_batch_size)
    (hb : b.frames.length < nv.max_batch_size) :
    (∀ b' ∈ (resultState (appendFrame nv s b o)).submitted,
      b'.frames.length ≤ nv.max_batch_size) ∧
    (∀ b', (resultState (appendFrame nv s b o)).batch = some b' →
      b'.frames.length < nv.max_batch_size) := by
  unfold appendFrame
  split
  · -- get_converted_mat failure: object skipped, batch kept unchanged
    refine ⟨h1, ?_⟩
    intro b' hb'
    simp only [resultState] at hb'
    obtain rfl : b = b' := by injection hb'
    exact hb
  · -- get_converted_buffer failure: call aborts, nothing more submitted
    refine ⟨h1, ?_⟩
    intro b' hb'
    simp only [resultState] at hb'
    obtain rfl : b = b' := by injection hb'
    exact hb
  · -- conversion success: frame appended, batch closed at max size
    split
    · refine ⟨?_, by simp [resultState]⟩
      intro b' hb'
      simp only [resultState] at hb'
      rcases List.mem_append.mp hb' with hb' | hb'
      · exact h1 b' hb'
      · rw [List.mem_singleton.mp hb']
        rename_i hlen
        simp only [List.length_append, List.length_singleton] at hlen ⊢
        omega
    · refine ⟨h1, ?_⟩
      intro b' hb'
      simp only [resultState] at hb'
      obtain rfl : _ = b' := by injection hb'
      rename_i hlen
      simp only [List.length_append, List.length_singleton] at hlen ⊢
      omega

/-- Helper: one iteration of the per-object loop preserves the batch-size
invariant. -/
theorem process_object_C3inv (nv : NvInferConfig) (pts : ℕ) (s : ProcState)
    (o : ProcObject) (hmax : 0 < nv.max_batch_size)
    (h1 : ∀ b ∈ s.submitted, b.frames.length ≤ nv.max_batch_size)
    (h2 : ∀ b, s.batch = some b → b.frames.length < nv.max_batch_size) :
    (∀ b ∈ (resultState (process_object nv pts s o)).submitted,
      b.frames.length ≤ nv.max_batch_size) ∧
    (∀ b, (resultState (process_object nv pts s o)).batch = some b →
      b.frames.length < nv.max_batch_size) := by
  unfold process_object
  split
  · -- async-mode untracked object: only warn bookkeeping changes
    split
    · split
      · exact ⟨h1, h2⟩
      · exact ⟨h1, h2⟩
    · exact ⟨h1, h2⟩
  · split
    · -- declined object
      split
      · -- deferred metadata attachment
        split
        · -- batch already allocated
          rename_i b hbatch
          refine ⟨h1, ?_⟩
          intro b' hb'
          simp only [resultState, deferAttach] at hb'
          obtain rfl : _ = b' := by injection hb'
          exact h2 b hbatch
        · split
          · -- fresh batch allocated for the deferred entry
            refine ⟨h1, ?_⟩
            intro b' hb'
            simp only [resultState, deferAttach] at hb'
            obtain rfl : _ = b' := by injection hb'
            simpa using hmax
          · exact ⟨h1, h2⟩
      · exact ⟨h1, h2⟩
    · -- accepted object
      obtain ⟨hbq, hsq⟩ := infer_update_history_queues s o
        (lookup_history s o) nv.classifier_async_mode
      split
      · -- batch already allocated
        rename_i b hbatch
        refine appendFrame_C3inv nv _ b o ?_ ?_
        · rw [hsq]; exact h1
        · exact h2 b (hbq ▸ hbatch)
      · split
        · -- fresh batch
          refine appendFrame_C3inv nv _ ⟨[], []⟩ o ?_ ?_
          · rw [hsq]; exact h1
          · simpa using hmax
        · -- pool acquisition failed: abort
          refine ⟨?_, ?_⟩
          · intro b hb
            simp only [resultState, hsq] at hb
            exact h1 b hb
          · intro b hb
            simp only [resultState] at hb
            rw [hbq] at hb
            exact h2 b hb

/-- Helper: the whole per-object loop preserves the batch-size
invariant. -/
theorem process_objects_loop_C3inv (nv : NvInferConfig) (pts : ℕ)
    (objs : List ProcObject) (hmax : 0 < nv.max_batch_size) :
    ∀ s : ProcState,
      (∀ b ∈ s.submitted, b.frames.length ≤ nv.max_batch_size) →
      (∀ b, s.batch = some b → b.frames.length < nv.max_batch_size) →
      (∀ b ∈ (resultState (process_objects_loop nv pts s objs)).submitted,
        b.frames.length ≤ nv.max_batch_size) ∧
      (∀ b, (resultState (process_objects_loop nv pts s objs)).batch = some b →
        b.frames.length < nv.max_batch_size) := by
  induction objs with
  | nil => intro s h1 h2; exact ⟨h1, h2⟩
  | cons o os ih =>
    intro s h1 h2
    have hstep := process_object_C3inv nv pts s o hmax h1 h2
    simp only [process_objects_loop]
    cases hpo : process_object nv pts s o with
    | ok s1 =>
      rw [hpo] at hstep
      exact ih s1 hstep.1 hstep.2
    | error s1 =>
      rw [hpo] at hstep
      exact hstep

/-- C3. Every batch handed onward by `gst_nvinfer_process_objects` holds
at most `max_batch_size` frames: the batch under construction is closed
and handed over as soon as `frames.size ()` reaches the maximum, and
deferred reuse entries (`objs_pending_meta_attach`) do not count toward
the size. -/
theorem C3_max_batch_size (nv : NvInferConfig) (pts : ℕ)
    (hist0 : List (ℕ × ObjectHistory)) (warn_pts0 : Option ℕ)
    (objs : List ProcObject) (hmax : 0 < nv.max_batch_size) :
    ∀ b ∈ (resultState
        (gst_nvinfer_process_objects nv pts hist0 warn_pts0 objs)).submitted,
      b.frames.length ≤ nv.max_batch_size := by
  have hloop := process_objects_loop_C3inv nv pts objs hmax
    ⟨none, [], hist0, warn_pts0, false, []⟩ (by simp) (by simp)
  unfold gst_nvinfer_process_objects
  cases hres : process_objects_loop nv pts
      ⟨none, [], hist0, warn_pts0, false, []⟩ objs with
  | ok s =>
    rw [hres] at hloop
    intro b hb
    simp only [resultState] at hb ⊢
    unfold finalize_batch at hb
    rcases hcase : s.batch with _ | b1
    · rw [hcase] at hb
      exact hloop.1 b hb
    · rw [hcase] at hb
      simp only at hb
      rcases List.mem_append.mp hb with hb | hb
      · exact hloop.1 b hb
      · rw [List.mem_singleton.mp hb]
        exact le_of_lt (hloop.2 b1 hcase)
  | error s =>
    rw [hres] at hloop
    exact hloop.1

/-- C3 witness: processing `objsC3` under `nvC3` (max batch size 2) hands
over the full batch of the first two frames, which respects the bound. -/
theorem C3_max_batch_size_witness :
    0 < nvC3.max_batch_size ∧
    (⟨[⟨5, 1⟩, ⟨5, 2⟩], []⟩ : ObjBatch).frames.length ≤ nvC3.max_batch_size :=
  ⟨by decide,
   C3_max_batch_size nvC3 0 [] none objsC3 (by decide)
     ⟨[⟨5, 1⟩, ⟨5, 2⟩], []⟩ (by decide)⟩

/-- C10. In classifier asynchronous mode, an object whose id equals the
untracked-object sentinel is skipped before any processing: the iteration
returns normally with the batch under construction, the handed-over
batches and the object history map all unchanged — so the object is never
submitted, batched or given a history record — and the only possible
effect is one warning, emitted only when no warning was emitted yet or
the previous one is more than the warn interval in the past. -/
theorem C10_async_untracked_skipped (nv : NvInferConfig) (pts : ℕ)
    (s : ProcState) (o : ProcObject)
    (hasync : nv.classifier_async_mode = true)
    (hid : o.meta.object_id = UNTRACKED_OBJECT_ID) :
    ∃ s1, process_object nv pts s o = FlowResult.ok s1 ∧
      s1.batch = s.batch ∧
      s1.submitted = s.submitted ∧
      s1.object_history_map = s.object_history_map ∧
      (s1.warnings = s.warnings ∨
        (s1.warnings = s.warnings ++ [pts] ∧
          s1.untracked_object_warn_pts = some pts ∧
          ∀ t, s.untracked_object_warn_pts = some t →
            gulongSub pts t > UNTRACKED_OBJECT_WARN_INTERVAL)) := by
  unfold process_object
  rw [if_pos ⟨hasync, hid⟩]
  cases hw : s.warn_untracked_object with
  | true =>
    rw [if_neg (by simp)]
    exact ⟨s, rfl, rfl, rfl, rfl, Or.inl rfl⟩
  | false =>
    rw [if_pos rfl]
    by_cases hc : (s.untracked_object_warn_pts = none ∨
        ∃ t, s.untracked_object_warn_pts = some t ∧
          gulongSub pts t > UNTRACKED_OBJECT_WARN_INTERVAL)
    · rw [if_pos hc]
      refine ⟨_, rfl, rfl, rfl, rfl, Or.inr ⟨rfl, rfl, ?_⟩⟩
      intro t ht
      rcases hc with hnone | ⟨t', ht', hgt⟩
      · rw [ht] at hnone
        simp at hnone
      · rw [ht] at ht'
        injection ht' with h
        rw [h]
        exact hgt
    · rw [if_neg hc]
      exact ⟨_, rfl, rfl, rfl, rfl, Or.inl rfl⟩

/-- C10 witness: the untracked object `oC10` processed at PTS 7 under the
async classifier `nvC10` with a previous warning at PTS 3. -/
theorem C10_async_untracked_skipped_witness :
    ∃ s1, process_object nvC10 7 sC10 oC10 = FlowResult.ok s1 ∧
      s1.batch = sC10.batch ∧
      s1.submitted = sC10.submitted ∧
      s1.object_history_map = sC10.object_history_map ∧
      (s1.warnings = sC10.warnings ∨
        (s1.warnings = sC10.warnings ++ [7] ∧
          s1.untracked_object_warn_pts = some 7 ∧
          ∀ t, sC10.untracked_object_warn_pts = some t →
            gulongSub 7 t > UNTRACKED_OBJECT_WARN_INTERVAL)) :=
  C10_async_untracked_skipped nvC10 7 sC10 oC10 rfl rfl

/-- C6 witness: the run where `queueInputBatch` fails for `bInfer` while
`bPush` (the frame-forwarding batch) still flows through, ending in
`sC6`. -/
theorem C6_engine_failure_handling_witness :
    sC6.errors = sC6.dropped.length ∧
    (∀ b ∈ sC6.dropped, b.kind = BatchKind.inferBatch) ∧
    ∃ t : PipeState, Relation.ReflTransGen PipeStep sC6 t ∧
      t.collected = sC6.collected ++ sC6.process_queue ++ sC6.input_queue ∧
      t.dropped = sC6.dropped ∧ t.submitted = sC6.submitted :=
  C6_engine_failure_handling sC6 (by
    refine Relation.ReflTransGen.head (PipeStep.submit initPipe bInfer) ?_
    refine Relation.ReflTransGen.head (PipeStep.submit _ bPush) ?_
    refine Relation.ReflTransGen.head
      (PipeStep.transfer_fail _ bInfer [bPush] rfl rfl) ?_
    refine Relation.ReflTransGen.head (PipeStep.transfer _ bPush [] rfl) ?_
    refine Relation.ReflTransGen.head (PipeStep.collect _ bPush [] rfl) ?_
    exact Relation.ReflTransGen.refl)

end GstNvInfer
